import Mathlib

/-!
Shallow embedding of the statement-delivery-method reconciliation job
(src/oldcode.py) and proofs about its claims.

The job fetches eligibility records, reconciles them against per-kind
delivery-flag tables through a batched upsert with per-row error capture,
classifies every record as Success or Fail, writes a CSV report and
finally decides whether to notify by email.
-/

/-- Values of the dynamically typed language the job is written in, restricted
to the shapes that actually occur in src/oldcode.py: integers (entity and
account numbers), strings, lists of integers (the bind-parameter rows
`entity_nbrs = [[r] for r in filtered_nbrs]`, line 192) and the 5-tuples
used for outcome rows (lines 224-232 and 239).  Equality between values of
different shapes is always false in the source language, which the derived
structural equality reproduces (distinct constructors are never equal). -/
inductive PyVal where
  | int (n : Int)
  | str (s : String)
  | intList (xs : List Int)
  | tuple5 (a b c d e : PyVal)
deriving DecidableEq

/-- Equality test of the source language restricted to the shapes in PyVal:
structural equality, false across different shapes. -/
def pyEq (a b : PyVal) : Bool := decide (a = b)

/-- One row returned by the eligibility query (src/oldcode.py lines 149-153):
a record carries ENTITY_TYPE, ENTITY_NUMBER, ACCTNBR and CLOSE_DATE, the
fields read by update_stdl_userfield and the report writer. -/
structure EligibilityRecord where
  entity_number : Int
  acctnbr : Int
  entity_type : String
  close_date : String
deriving DecidableEq

/-- One element of cursor.getbatcherrors() (src/oldcode.py line 208): a row
offset into the submitted batch plus a message. -/
structure BatchError where
  offset : Nat
  message : String
deriving DecidableEq

/-- The per-kind delivery-flag table, keyed on entity number (the flag-type
code is fixed, so it is left implicit). -/
abbrev Table := List (Int × String)

/-- First-occurrence de-duplication with an accumulator of already seen
elements.  Models `filtered_nbrs = list(set(r[ENTITY_NUMBER] for r in records))`
(src/oldcode.py line 191): list(set(..)) returns the distinct entity numbers
in an unspecified order; we fix first-occurrence order.  None of the verified
properties depend on the order, only on distinctness and membership. -/
def dedupSeen (seen : List Int) : List Int → List Int
  | [] => []
  | x :: xs => if x ∈ seen then dedupSeen seen xs else x :: dedupSeen (x :: seen) xs

/-- De-duplicated entity numbers of a record list (src/oldcode.py line 191). -/
def filteredNbrs (records : List EligibilityRecord) : List Int :=
  dedupSeen [] (records.map (fun r => r.entity_number))

/-- The batch submitted to executemany: each de-duplicated entity number
wrapped in a one-element bind-parameter list
(`entity_nbrs = [[r] for r in filtered_nbrs]`, src/oldcode.py line 192). -/
def entityNbrsBatch (records : List EligibilityRecord) : List (List Int) :=
  (filteredNbrs records).map (fun n => [n])

/-- The reported batch errors carry offsets that index into the submitted
batch; the database driver only reports offsets of submitted rows. -/
abbrev offsetsValid (records : List EligibilityRecord) (errs : List BatchError) : Prop :=
  ∀ e ∈ errs, e.offset < (entityNbrsBatch records).length

/-- The Success outcome row built on src/oldcode.py line 239:
(ENTITY_NUMBER, ACCTNBR, ENTITY_TYPE, CLOSE_DATE, Success). -/
def successRow (r : EligibilityRecord) : PyVal :=
  .tuple5 (.int r.entity_number) (.int r.acctnbr) (.str r.entity_type)
    (.str r.close_date) (.str "Success")

/-- The Fail outcome row appended on src/oldcode.py lines 224-232.  Its first
component is merge_ent_nbr, which at that point is the whole one-element
bind-parameter list taken from entity_nbrs, not the bare entity number. -/
def failRow (merge_ent_nbr : List Int) (r : EligibilityRecord) : PyVal :=
  .tuple5 (.intList merge_ent_nbr) (.int r.acctnbr) (.str r.entity_type)
    (.str r.close_date) (.str "Fail")

/-- The fail list built by the batch-error loop (src/oldcode.py lines 210-232):
for each reported error, look up `merge_ent_nbr = entity_nbrs[error.offset]`
(a one-element list of integers) and append a Fail row for every record whose
integer ENTITY_NUMBER compares equal to that list value. -/
def failsFor (records : List EligibilityRecord) (batch_errors : List BatchError) : List PyVal :=
  batch_errors.foldl
    (fun fs err =>
      let merge_ent_nbr := (entityNbrsBatch records).getD err.offset []
      fs ++ ((records.filter
        (fun rec => pyEq (.int rec.entity_number) (.intList merge_ent_nbr))).map
          (failRow merge_ent_nbr)))
    []

/-- The success list comprehension (src/oldcode.py lines 239-240): a record
becomes a Success row when its integer ENTITY_NUMBER is not a member of
fails, a list of 5-tuples; membership uses the source-language equality. -/
def successesFor (records : List EligibilityRecord) (fails : List PyVal) : List PyVal :=
  (records.filter
    (fun r => ! fails.any (fun f => pyEq (.int r.entity_number) f))).map successRow

/-- Modelled from the spec: the upsert statements update_pers_stdl and
update_org_stdl live in an external configuration file, not in the
repository; section 4.3 of the spec specifies them as update-if-present
-else-insert of the paper-default sentinel keyed on the entity number. -/
def paperDefault : String := "PAPER"

/-- Modelled from the spec: apply one conditional upsert for one entity
number — update the row to the paper default when present, insert it
otherwise (spec section 4.3). -/
def applyMerge (tbl : Table) (n : Int) : Table :=
  if tbl.any (fun p => p.1 == n) then
    tbl.map (fun p => if p.1 = n then (p.1, paperDefault) else p)
  else
    tbl ++ [(n, paperDefault)]

/-- Effect of `sth.executemany(sql_merge, entity_nbrs, batcherrors=True)`
(src/oldcode.py line 206) on the flag table: each batch row is applied in
order, except the rows whose offsets got a batch error, which make no
change. -/
def applyBatchMerges (tbl : Table) (batch : List (List Int)) (errOffsets : List Nat) : Table :=
  (List.range batch.length).foldl
    (fun t i => if i ∈ errOffsets then t else (batch.getD i []).foldl applyMerge t)
    tbl

/-- Embedding of update_stdl_userfield (src/oldcode.py lines 186-246) for one
entity kind.  Inputs: the report-only flag (RPTONLY_YN equal to Y), the
current flag table, the fetched records of this kind, and the batch errors
reported by the driver for this submission.  Output: the (successes, fails)
outcome lists and the flag table after commit (RPTONLY_YN = N, where
autocommit is also on) or rollback (RPTONLY_YN = Y). -/
def update_stdl_userfield (rptonly : Bool) (tbl : Table)
    (records : List EligibilityRecord) (batch_errors : List BatchError) :
    (List PyVal × List PyVal) × Table :=
  if records.isEmpty then (([], []), tbl)
  else
    let entity_nbrs := entityNbrsBatch records
    let pending := applyBatchMerges tbl entity_nbrs (batch_errors.map (fun e => e.offset))
    let fails := failsFor records batch_errors
    let tbl2 := if rptonly then tbl else pending
    let successes := successesFor records fails
    ((successes, fails), tbl2)

/-- The close-date join fragment selected by fetch_records
(src/oldcode.py lines 141-144). -/
inductive CloseDateJoin where
  | dateSpecific (runDate : String)
  | fullCleanup
deriving DecidableEq

/-- The upper() method of the source language: upper-case every character.
(The library function String.toUpper is extensionally the same but is
defined by well-founded recursion and does not reduce inside the kernel,
so the claim evaluations use this character-list map instead.) -/
def pyUpper (s : String) : String := ⟨s.data.map Char.toUpper⟩

/-- Run-mode validation and join selection of fetch_records
(src/oldcode.py lines 119-148).  is_full_cleanup is True when
FULL_CLEANUP_YN upper-cases to Y and None otherwise; when it and RUN_DATE
are both set or both absent a configuration exception is raised before the
eligibility query is built or executed; otherwise the matching join
fragment is chosen and the query proceeds. -/
def fetch_records_mode (fullCleanupYN : String) (runDate : Option String) :
    Except String CloseDateJoin :=
  let is_full_cleanup : Option Bool :=
    if pyUpper fullCleanupYN = "Y" then some true else none
  match is_full_cleanup, runDate with
  | some _, some _ =>
      .error "Parameter error - IS_FULL_CLEANUP and RUN_DATE params are mutually exclusive."
  | none, none =>
      .error "Parameter error - no RUN_DATE parameter provided, and IS_FULL_CLEANUP not selected."
  | none, some rd => .ok (.dateSpecific rd)
  | some _, none => .ok .fullCleanup

/-- The CSV header row written by write_report (src/oldcode.py line 282). -/
def headerRow : List PyVal :=
  [.str "ENTITY_NBR", .str "ACCTNBR", .str "ENTITY_TYPE", .str "CLOSE_DATE", .str "RESULT"]

/-- The body row written for one outcome record (src/oldcode.py lines
286-297): the record tuple is zipped with the header into a dict and read
back in header order, which returns its five components unchanged. -/
def recToRow : PyVal → List PyVal
  | .tuple5 a b c d e => [a, b, c, d, e]
  | v => [v]

/-- Embedding of write_report (src/oldcode.py lines 275-299).  The local
variable header is only assigned under `if write_mode == w` (line 281); in
any other mode the first loop iteration reads the unassigned header at
`dict(zip(header, rec))` (line 287) and raises, before any row is written.
Result: the rows that reach the file, and the raised error if any. -/
def write_report (records : List PyVal) (write_mode : String) :
    List (List PyVal) × Option String :=
  if write_mode = "w" then
    ([headerRow] ++ records.map recToRow, none)
  else
    match records with
    | [] => ([], none)
    | _ :: _ =>
        ([], some "UnboundLocalError: local variable header referenced before assignment")

/-- Embedding of write_report_file (src/oldcode.py lines 249-258): write the
successes in mode w when non-empty, then the fails in append mode when
non-empty; an error raised by the first write propagates and skips the
second.  Result: the concatenated file content and the raised error if
any. -/
def write_report_file (successes fails : List PyVal) :
    List (List PyVal) × Option String :=
  let step1 := if successes.isEmpty then ([], none) else write_report successes "w"
  match step1.2 with
  | some e => (step1.1, some e)
  | none =>
      let step2 := if fails.isEmpty then ([], none) else write_report fails "a+"
      (step1.1 ++ step2.1, step2.2)

/-- Externally observable stages of one run, in execution order. -/
inductive JobAction where
  | fetchQuery
  | upsertBatch
  | reportWrite
deriving DecidableEq

/-- Result of one run of the job: the stage trace, the raised error if any,
the outcome ledger, the report file content, and the final flag tables. -/
structure RunResult where
  trace : List JobAction
  error : Option String
  successes : List PyVal
  fails : List PyVal
  report : List (List PyVal)
  persTbl : Table
  orgTbl : Table
deriving DecidableEq

/-- Embedding of run up to the report stage (src/oldcode.py lines 52-57):
fetch_records validates the run mode, executes the eligibility query and
partitions the rows by ENTITY_TYPE (lines 149-153); process_records then
checks whether the report destination already exists (lines 164-167) — note
this check runs after the fetch — and performs the per-kind updates (lines
173-180); finally write_report_file writes the report.  A raised error
stops the pipeline at its stage. -/
def runJob (destExists : Bool) (fullCleanupYN : String) (runDate : Option String)
    (rptonly : Bool) (persTbl orgTbl : Table) (records : List EligibilityRecord)
    (persErrs orgErrs : List BatchError) : RunResult :=
  match fetch_records_mode fullCleanupYN runDate with
  | .error e => ⟨[], some e, [], [], [], persTbl, orgTbl⟩
  | .ok _ =>
    let trace1 := [JobAction.fetchQuery]
    let pers_records := records.filter (fun r => r.entity_type == "pers")
    let org_records := records.filter (fun r => r.entity_type == "org")
    if destExists then
      ⟨trace1, some "Output file already exists", [], [], [], persTbl, orgTbl⟩
    else
      let pres := update_stdl_userfield rptonly persTbl pers_records persErrs
      let ores := update_stdl_userfield rptonly orgTbl org_records orgErrs
      let successes := pres.1.1 ++ ores.1.1
      let fails := pres.1.2 ++ ores.1.2
      let trace2 := trace1
        ++ (if pers_records.isEmpty then [] else [JobAction.upsertBatch])
        ++ (if org_records.isEmpty then [] else [JobAction.upsertBatch])
      let rep := write_report_file successes fails
      let trace3 := trace2
        ++ (if successes.isEmpty && fails.isEmpty then [] else [JobAction.reportWrite])
      ⟨trace3, rep.2, successes, fails, rep.1, pres.2, ores.2⟩

/-- Embedding of send_email (src/oldcode.py lines 302-326).  The rendering
of the template (generate_email_content, line 314) and the SMTP transport
(send_smtp_request, line 322) are external effects, passed in as their
results.  Only the SMTP call sits inside the try block (lines 321-326);
a rendering failure raises before the try block is entered.  TEST_EMAIL_ADDR
overrides the first recipient when present. -/
def send_email (recipients : List String) (testAddr : Option String)
    (renderResult : Except String String) (isLocal sendEnabled : Bool)
    (smtpResult : Except String Unit) : Except String (Bool × String) :=
  let to_address : Option String :=
    match testAddr with
    | some t => some t
    | none => recipients.head?
  match to_address with
  | none => .ok (false, "No email recipients")
  | some _ =>
    match renderResult with
    | .error e => .error e
    | .ok _ =>
      if isLocal || !sendEnabled then .ok (false, "Email Send Disabled")
      else
        match smtpResult with
        | .error _ => .ok (false, "Email Failed")
        | .ok _ => .ok (true, "Email Sent")

/-- The (entity number, account number) identity of an outcome row, used to
state disjointness of the Success and Fail partitions. -/
def rowId : PyVal → PyVal × PyVal
  | .tuple5 a b _ _ _ => (a, b)
  | v => (v, v)

/-- The entity-number component of an outcome row. -/
def rowEntity : PyVal → PyVal
  | .tuple5 a _ _ _ _ => a
  | v => v

/-- The organization record of the end-to-end scenario of spec section 8:
entity 900 with qualifying account 700. -/
def orgScenarioRecords : List EligibilityRecord :=
  [⟨900, 700, "org", "01-15-2024"⟩]

/-- One batch error at offset 0, the failure reported for entity 900 in the
scenario of spec section 8. -/
def orgScenarioErrors : List BatchError :=
  [⟨0, "ORA-01407: cannot update to NULL"⟩]

/-- The full input of the end-to-end scenario of spec section 8: person
entity 100 with qualifying closed accounts 501 and 502, organization entity
900 with qualifying account 700. -/
def scenarioRecords : List EligibilityRecord :=
  [⟨100, 501, "pers", "01-15-2024"⟩, ⟨100, 502, "pers", "01-15-2024"⟩,
   ⟨900, 700, "org", "01-15-2024"⟩]

theorem pyEq_int_intList (n : Int) (xs : List Int) :
    pyEq (.int n) (.intList xs) = false := by
  simp [pyEq]

theorem pyEq_int_tuple5 (n : Int) (a b c d e : PyVal) :
    pyEq (.int n) (.tuple5 a b c d e) = false := by
  simp [pyEq]

/-- The batch-error loop never appends a Fail row: the filter predicate
compares an integer entity number with a bind-parameter list, two values of
different shapes, so it is false on every record. -/
theorem failsFor_eq_nil (records : List EligibilityRecord) (errs : List BatchError) :
    failsFor records errs = [] := by
  unfold failsFor
  suffices h : ∀ acc : List PyVal,
      errs.foldl
        (fun fs err =>
          let merge_ent_nbr := (entityNbrsBatch records).getD err.offset []
          fs ++ ((records.filter
            (fun rec => pyEq (.int rec.entity_number) (.intList merge_ent_nbr))).map
              (failRow merge_ent_nbr)))
        acc = acc by
    exact h []
  intro acc
  induction errs generalizing acc with
  | nil => rfl
  | cons e es ih =>
      have hfil : records.filter
          (fun rec => pyEq (.int rec.entity_number)
            (.intList ((entityNbrsBatch records).getD e.offset []))) = [] := by
        refine List.filter_eq_nil_iff.mpr ?_
        intro r _
        simp [pyEq_int_intList]
      simp only [List.foldl_cons, hfil, List.map_nil, List.append_nil]
      exact ih acc

/-- With an empty fail list the success comprehension keeps every record. -/
theorem successesFor_nil (records : List EligibilityRecord) :
    successesFor records [] = records.map successRow := by
  unfold successesFor
  have hfil : records.filter
      (fun r => ! List.any [] (fun f => pyEq (.int r.entity_number) f)) = records := by
    refine List.filter_eq_self.mpr ?_
    intro r _
    simp
  rw [hfil]

/-- The outcome part of update_stdl_userfield: the fail list is always empty
and every input record becomes a Success row, for any flag table, report
flag and reported batch errors. -/
theorem update_outcomes_eq (rptonly : Bool) (tbl : Table)
    (records : List EligibilityRecord) (errs : List BatchError) :
    (update_stdl_userfield rptonly tbl records errs).1 = (records.map successRow, []) := by
  unfold update_stdl_userfield
  by_cases h : records.isEmpty
  · rw [List.isEmpty_iff] at h
    subst h
    simp
  · simp only [h, if_false, Bool.false_eq_true]
    rw [failsFor_eq_nil, successesFor_nil]

/-- In report-only mode the flag table is returned unchanged (rollback). -/
theorem update_table_report_only (tbl : Table)
    (records : List EligibilityRecord) (errs : List BatchError) :
    (update_stdl_userfield true tbl records errs).2 = tbl := by
  unfold update_stdl_userfield
  by_cases h : records.isEmpty <;> simp [h]

theorem dedupSeen_mem (x : Int) (l : List Int) :
    ∀ seen, x ∈ dedupSeen seen l ↔ x ∈ l ∧ x ∉ seen := by
  induction l with
  | nil =>
      intro seen
      simp [dedupSeen]
  | cons y ys ih =>
      intro seen
      by_cases hy : y ∈ seen
      · rw [dedupSeen, if_pos hy, ih seen, List.mem_cons]
        constructor
        · rintro ⟨hx, hxs⟩
          exact ⟨Or.inr hx, hxs⟩
        · rintro ⟨hx | hx, hxs⟩
          · exact absurd (hx ▸ hy) hxs
          · exact ⟨hx, hxs⟩
      · rw [dedupSeen, if_neg hy]
        simp only [List.mem_cons, ih (y :: seen), List.mem_cons]
        by_cases hxy : x = y
        · subst hxy
          simp [hy]
        · simp [hxy]

theorem dedupSeen_count (x : Int) (l : List Int) :
    ∀ seen, x ∈ l → x ∉ seen → (dedupSeen seen l).count x = 1 := by
  induction l with
  | nil =>
      intro seen hx _
      cases hx
  | cons y ys ih =>
      intro seen hx hs
      by_cases hy : y ∈ seen
      · rw [dedupSeen, if_pos hy]
        have hxy : x ≠ y := fun h => hs (h ▸ hy)
        have hx2 : x ∈ ys := by
          rcases List.mem_cons.mp hx with h | h
          · exact absurd h hxy
          · exact h
        exact ih seen hx2 hs
      · rw [dedupSeen, if_neg hy]
        by_cases hxy : x = y
        · subst hxy
          have hnot : x ∉ dedupSeen (x :: seen) ys := by
            rw [dedupSeen_mem]
            rintro ⟨_, hmem⟩
            exact hmem (List.mem_cons_self x seen)
          rw [List.count_cons_self, List.count_eq_zero.mpr hnot]
        · have hx2 : x ∈ ys := by
            rcases List.mem_cons.mp hx with h | h
            · exact absurd h hxy
            · exact h
          rw [List.count_cons_of_ne hxy]
          refine ih (y :: seen) hx2 ?_
          intro hmem
          rcases List.mem_cons.mp hmem with h | h
          · exact hxy h
          · exact hs h

/-- Every entity number of the input appears exactly once among the
de-duplicated numbers submitted to the batch. -/
theorem filteredNbrs_count (records : List EligibilityRecord) (E : Int)
    (h : E ∈ records.map (fun r => r.entity_number)) :
    (filteredNbrs records).count E = 1 := by
  unfold filteredNbrs
  exact dedupSeen_count E _ [] h (by simp)

/-- Claim C9 (confirmed): for every non-empty input record list and every set
of reported batch errors, the fail list returned by update_stdl_userfield is
empty and every input record appears in the success list, because the value
looked up at each error offset is a one-element bind-parameter list which is
compared for equality against the integer ENTITY_NUMBER field of each
record, and values of different shapes never compare equal. -/
theorem C9_all_records_reported_success (rptonly : Bool) (tbl : Table)
    (records : List EligibilityRecord) (errs : List BatchError)
    (hne : records ≠ []) (hv : offsetsValid records errs) :
    (update_stdl_userfield rptonly tbl records errs).1.2 = [] ∧
    (update_stdl_userfield rptonly tbl records errs).1.1 = records.map successRow := by
  simp [update_outcomes_eq]

theorem C9_witness :
    (orgScenarioRecords ≠ [] ∧ offsetsValid orgScenarioRecords orgScenarioErrors) ∧
    ((update_stdl_userfield false [] orgScenarioRecords orgScenarioErrors).1.2 = [] ∧
     (update_stdl_userfield false [] orgScenarioRecords orgScenarioErrors).1.1
       = orgScenarioRecords.map successRow) :=
  ⟨⟨by decide, by decide⟩,
    C9_all_records_reported_success false [] orgScenarioRecords orgScenarioErrors
      (by decide) (by decide)⟩

/-- Claim C2 (confirmed): for every entity kind and every input record list,
the success and fail outcome lists returned by update_stdl_userfield satisfy
length successes + length fails = length of the input, and no success row
shares its (entity number, account number) identity with any fail row. -/
theorem C2_outcome_partition (rptonly : Bool) (tbl : Table)
    (records : List EligibilityRecord) (errs : List BatchError)
    (hv : offsetsValid records errs) :
    ((update_stdl_userfield rptonly tbl records errs).1.1.length
      + (update_stdl_userfield rptonly tbl records errs).1.2.length
      = records.length) ∧
    (∀ v ∈ (update_stdl_userfield rptonly tbl records errs).1.1,
      rowId v ∉ ((update_stdl_userfield rptonly tbl records errs).1.2).map rowId) := by
  simp [update_outcomes_eq]

theorem C2_witness :
    offsetsValid orgScenarioRecords orgScenarioErrors ∧
    (((update_stdl_userfield true [] orgScenarioRecords orgScenarioErrors).1.1.length
       + (update_stdl_userfield true [] orgScenarioRecords orgScenarioErrors).1.2.length
       = orgScenarioRecords.length) ∧
     (∀ v ∈ (update_stdl_userfield true [] orgScenarioRecords orgScenarioErrors).1.1,
       rowId v ∉ ((update_stdl_userfield true [] orgScenarioRecords orgScenarioErrors).1.2).map
         rowId)) :=
  ⟨by decide, C2_outcome_partition true [] orgScenarioRecords orgScenarioErrors (by decide)⟩

/-- Claim C4 (confirmed): when an entity number E appears in two or more
input records, the batch submitted to executemany contains the
bind-parameter row for E exactly once (and the de-duplicated number list
contains E exactly once), while the outcome ledger holds one row per
original record of E. -/
theorem C4_dedup_batch_once_ledger_per_record (rptonly : Bool) (tbl : Table)
    (records : List EligibilityRecord) (errs : List BatchError) (E : Int)
    (h2 : 2 ≤ records.countP (fun r => decide (r.entity_number = E)))
    (hv : offsetsValid records errs) :
    (filteredNbrs records).count E = 1 ∧
    (entityNbrsBatch records).countP (fun b => decide (b = [E])) = 1 ∧
    ((update_stdl_userfield rptonly tbl records errs).1.1
      ++ (update_stdl_userfield rptonly tbl records errs).1.2).countP
        (fun v => decide (rowEntity v = PyVal.int E))
      = records.countP (fun r => decide (r.entity_number = E)) := by
  have hmem : E ∈ records.map (fun r => r.entity_number) := by
    have hpos : 0 < records.countP (fun r => decide (r.entity_number = E)) := by omega
    rcases List.countP_pos_iff.mp hpos with ⟨r, hr, hrE⟩
    rw [List.mem_map]
    exact ⟨r, hr, by simpa using hrE⟩
  have h1 : (filteredNbrs records).count E = 1 := filteredNbrs_count records E hmem
  refine ⟨h1, ?_, ?_⟩
  · unfold entityNbrsBatch
    rw [List.countP_map]
    have hstep : (filteredNbrs records).countP
        ((fun b => decide (b = [E])) ∘ fun n => [n])
        = (filteredNbrs records).countP (fun n => decide (n = E)) := by
      refine List.countP_congr ?_
      intro n _
      simp
    rw [hstep, ← h1, List.count_eq_countP]
    refine List.countP_congr ?_
    intro x _
    simp
  · rw [update_outcomes_eq]
    simp only [List.append_nil, List.countP_map]
    refine List.countP_congr ?_
    intro r _
    simp [successRow, rowEntity]

theorem C4_witness :
    (2 ≤ scenarioRecords.countP (fun r => decide (r.entity_number = 100)) ∧
     offsetsValid scenarioRecords []) ∧
    ((filteredNbrs scenarioRecords).count 100 = 1 ∧
     (entityNbrsBatch scenarioRecords).countP (fun b => decide (b = [100])) = 1 ∧
     ((update_stdl_userfield false [] scenarioRecords []).1.1
       ++ (update_stdl_userfield false [] scenarioRecords []).1.2).countP
         (fun v => decide (rowEntity v = PyVal.int 100))
       = scenarioRecords.countP (fun r => decide (r.entity_number = 100))) :=
  ⟨⟨by decide, by decide⟩,
    C4_dedup_batch_once_ledger_per_record false [] scenarioRecords [] 100
      (by decide) (by decide)⟩

/-- Claim C1 (code bug, evaluated at the failing input): the driver reports a
row-level error at offset 0, which corresponds to de-duplicated entity 900,
yet the Fail outcome list comes back empty — the comparison on
src/oldcode.py line 223 matches the integer ENTITY_NUMBER 900 against the
bind-parameter list holding 900, which never succeeds — and the record of
entity 900 is reported Success instead. -/
theorem C1_failed_entity_never_marked_fail :
    (update_stdl_userfield false [] orgScenarioRecords orgScenarioErrors).1.2 = [] ∧
    (update_stdl_userfield false [] orgScenarioRecords orgScenarioErrors).1.1
      = [PyVal.tuple5 (.int 900) (.int 700) (.str "org") (.str "01-15-2024")
          (.str "Success")] := by
  decide

/-- Claim C3 (code bug, evaluated at the scenario input of spec section 8):
with person entity 100 holding qualifying accounts 501 and 502, organization
entity 900 holding account 700, and the batch upsert failing only for entity
900, the actual run reports Success for all three records — including
(900, 700) — with an empty Fail list, and the report file holds the header
row followed by three Success rows and no Fail row. -/
theorem C3_scenario_reports_all_success :
    (runJob false "N" (some "01-15-2024") false [] [] scenarioRecords []
      orgScenarioErrors).error = none ∧
    (runJob false "N" (some "01-15-2024") false [] [] scenarioRecords []
      orgScenarioErrors).fails = [] ∧
    (runJob false "N" (some "01-15-2024") false [] [] scenarioRecords []
      orgScenarioErrors).successes
      = [successRow ⟨100, 501, "pers", "01-15-2024"⟩,
         successRow ⟨100, 502, "pers", "01-15-2024"⟩,
         successRow ⟨900, 700, "org", "01-15-2024"⟩] ∧
    (runJob false "N" (some "01-15-2024") false [] [] scenarioRecords []
      orgScenarioErrors).report
      = [headerRow,
         [PyVal.int 100, .int 501, .str "pers", .str "01-15-2024", .str "Success"],
         [PyVal.int 100, .int 502, .str "pers", .str "01-15-2024", .str "Success"],
         [PyVal.int 900, .int 700, .str "org", .str "01-15-2024", .str "Success"]] := by
  decide

theorem runJob_trace_of_bad_mode (destExists : Bool) (yn : String) (rd : Option String)
    (rptonly : Bool) (ptbl otbl : Table) (records : List EligibilityRecord)
    (perrs oerrs : List BatchError)
    (h : (fetch_records_mode yn rd).isOk = false) :
    (runJob destExists yn rd rptonly ptbl otbl records perrs oerrs).trace = [] := by
  rcases heq : fetch_records_mode yn rd with e | m
  · simp [runJob, heq]
  · rw [heq] at h
    simp [Except.isOk, Except.toBool] at h

theorem runJob_trace_of_ok_mode (destExists : Bool) (yn : String) (rd : Option String)
    (rptonly : Bool) (ptbl otbl : Table) (records : List EligibilityRecord)
    (perrs oerrs : List BatchError)
    (h : (fetch_records_mode yn rd).isOk = true) :
    JobAction.fetchQuery ∈ (runJob destExists yn rd rptonly ptbl otbl records perrs oerrs).trace := by
  rcases heq : fetch_records_mode yn rd with e | m
  · rw [heq] at h
    simp [Except.isOk, Except.toBool] at h
  · cases destExists <;> simp [runJob, heq]

/-- Claim C5 (confirmed): with FULL_CLEANUP_YN constrained by the argument
parser to Y or N, the run-mode check of fetch_records raises a configuration
error — and the run trace stays empty, no eligibility query executes — when
the full-cleanup selector and a run date are both supplied or both absent;
the query executes exactly when one of the two run-mode inputs is present. -/
theorem C5_run_mode_exclusive (yn : String) (rd : Option String)
    (destExists rptonly : Bool) (ptbl otbl : Table) (records : List EligibilityRecord)
    (perrs oerrs : List BatchError) (hyn : yn = "Y" ∨ yn = "N") :
    (((yn = "Y" ∧ rd ≠ none) ∨ (yn = "N" ∧ rd = none)) →
      (fetch_records_mode yn rd).isOk = false ∧
      (runJob destExists yn rd rptonly ptbl otbl records perrs oerrs).trace = []) ∧
    (((yn = "Y" ∧ rd = none) ∨ (yn = "N" ∧ rd ≠ none)) →
      (fetch_records_mode yn rd).isOk = true ∧
      JobAction.fetchQuery ∈
        (runJob destExists yn rd rptonly ptbl otbl records perrs oerrs).trace) := by
  have hY : pyUpper "Y" = "Y" := by decide
  have hN : ¬ pyUpper "N" = "Y" := by decide
  rcases hyn with h | h <;> subst h
  · cases rd with
    | none =>
        have hok : (fetch_records_mode "Y" none).isOk = true := by
          simp [fetch_records_mode, hY, Except.isOk, Except.toBool]
        refine ⟨?_, fun _ => ⟨hok, runJob_trace_of_ok_mode _ _ _ _ _ _ _ _ _ hok⟩⟩
        rintro (⟨-, hne⟩ | ⟨hc, -⟩)
        · exact absurd rfl hne
        · exact absurd hc (by decide)
    | some d =>
        have hbad : (fetch_records_mode "Y" (some d)).isOk = false := by
          simp [fetch_records_mode, hY, Except.isOk, Except.toBool]
        refine ⟨fun _ => ⟨hbad, runJob_trace_of_bad_mode _ _ _ _ _ _ _ _ _ hbad⟩, ?_⟩
        rintro (⟨-, hne⟩ | ⟨hc, -⟩)
        · exact absurd hne (by simp)
        · exact absurd hc (by decide)
  · cases rd with
    | none =>
        have hbad : (fetch_records_mode "N" none).isOk = false := by
          simp [fetch_records_mode, hN, Except.isOk, Except.toBool]
        refine ⟨fun _ => ⟨hbad, runJob_trace_of_bad_mode _ _ _ _ _ _ _ _ _ hbad⟩, ?_⟩
        rintro (⟨hc, -⟩ | ⟨-, hne⟩)
        · exact absurd hc (by decide)
        · exact absurd rfl hne
    | some d =>
        have hok : (fetch_records_mode "N" (some d)).isOk = true := by
          simp [fetch_records_mode, hN, Except.isOk, Except.toBool]
        refine ⟨?_, fun _ => ⟨hok, runJob_trace_of_ok_mode _ _ _ _ _ _ _ _ _ hok⟩⟩
        rintro (⟨hc, -⟩ | ⟨-, hne⟩)
        · exact absurd hc (by decide)
        · exact absurd hne (by simp)

theorem C5_witness :
    ("N" = "Y" ∨ "N" = "N") ∧
    (((("N" = "Y" ∧ (some "01-15-2024" : Option String) ≠ none)
        ∨ ("N" = "N" ∧ (some "01-15-2024" : Option String) = none)) →
      (fetch_records_mode "N" (some "01-15-2024")).isOk = false ∧
      (runJob false "N" (some "01-15-2024") false [] [] scenarioRecords [] []).trace = []) ∧
     ((("N" = "Y" ∧ (some "01-15-2024" : Option String) = none)
        ∨ ("N" = "N" ∧ (some "01-15-2024" : Option String) ≠ none)) →
      (fetch_records_mode "N" (some "01-15-2024")).isOk = true ∧
      JobAction.fetchQuery ∈
        (runJob false "N" (some "01-15-2024") false [] [] scenarioRecords [] []).trace)) :=
  ⟨Or.inr rfl,
    C5_run_mode_exclusive "N" (some "01-15-2024") false false [] [] scenarioRecords [] []
      (Or.inr rfl)⟩

/-- Claim C6 (confirmed; the upsert statement semantics are modelled from the
spec since the merge SQL lives in the external configuration file): on
identical input data a report-only run returns the same success and fail
outcome lists and the same report content as a commit-mode run, and leaves
both flag tables exactly as they were. -/
theorem C6_report_only_same_ledger_no_persist (destExists : Bool) (yn : String)
    (rd : Option String) (ptbl otbl : Table) (records : List EligibilityRecord)
    (perrs oerrs : List BatchError)
    (hp : offsetsValid (records.filter (fun r => r.entity_type == "pers")) perrs)
    (ho : offsetsValid (records.filter (fun r => r.entity_type == "org")) oerrs) :
    (runJob destExists yn rd true ptbl otbl records perrs oerrs).successes
      = (runJob destExists yn rd false ptbl otbl records perrs oerrs).successes ∧
    (runJob destExists yn rd true ptbl otbl records perrs oerrs).fails
      = (runJob destExists yn rd false ptbl otbl records perrs oerrs).fails ∧
    (runJob destExists yn rd true ptbl otbl records perrs oerrs).report
      = (runJob destExists yn rd false ptbl otbl records perrs oerrs).report ∧
    (runJob destExists yn rd true ptbl otbl records perrs oerrs).persTbl = ptbl ∧
    (runJob destExists yn rd true ptbl otbl records perrs oerrs).orgTbl = otbl := by
  rcases heq : fetch_records_mode yn rd with e | m
  · simp [runJob, heq]
  · cases destExists
    · simp [runJob, heq, update_outcomes_eq, update_table_report_only]
    · simp [runJob, heq]

theorem C6_witness :
    (offsetsValid (scenarioRecords.filter (fun r => r.entity_type == "pers")) [] ∧
     offsetsValid (scenarioRecords.filter (fun r => r.entity_type == "org"))
       orgScenarioErrors) ∧
    ((runJob false "N" (some "01-15-2024") true [(100, "EMAIL")] [] scenarioRecords []
        orgScenarioErrors).successes
      = (runJob false "N" (some "01-15-2024") false [(100, "EMAIL")] [] scenarioRecords []
        orgScenarioErrors).successes ∧
     (runJob false "N" (some "01-15-2024") true [(100, "EMAIL")] [] scenarioRecords []
        orgScenarioErrors).fails
      = (runJob false "N" (some "01-15-2024") false [(100, "EMAIL")] [] scenarioRecords []
        orgScenarioErrors).fails ∧
     (runJob false "N" (some "01-15-2024") true [(100, "EMAIL")] [] scenarioRecords []
        orgScenarioErrors).report
      = (runJob false "N" (some "01-15-2024") false [(100, "EMAIL")] [] scenarioRecords []
        orgScenarioErrors).report ∧
     (runJob false "N" (some "01-15-2024") true [(100, "EMAIL")] [] scenarioRecords []
        orgScenarioErrors).persTbl = [(100, "EMAIL")] ∧
     (runJob false "N" (some "01-15-2024") true [(100, "EMAIL")] [] scenarioRecords []
        orgScenarioErrors).orgTbl = []) :=
  ⟨⟨by decide, by decide⟩,
    C6_report_only_same_ledger_no_persist false "N" (some "01-15-2024") [(100, "EMAIL")] []
      scenarioRecords [] orgScenarioErrors (by decide) (by decide)⟩

/-- Claim C7, counterexample to the claim as stated: in a run whose report
destination already exists the eligibility fetch has already executed when
the job aborts — the abort happens inside process_records, which run calls
only after fetch_records — so the job does not abort before fetching
records. -/
theorem C7_counterexample :
    JobAction.fetchQuery ∈
      (runJob true "N" (some "01-15-2024") false [] [] scenarioRecords [] []).trace ∧
    (runJob true "N" (some "01-15-2024") false [] [] scenarioRecords [] []).error
      = some "Output file already exists" := by
  decide

/-- Claim C7 as amended: for every run whose report destination path already
exists, the job aborts with an error before any flag-table upsert and before
any report write — no batch is submitted, no report content is produced and
both flag tables are untouched — but the eligibility fetch may already have
executed, because the existence check runs inside process_records, after
fetch_records. -/
theorem C7_abort_before_mutation_and_write (yn : String) (rd : Option String)
    (rptonly : Bool) (ptbl otbl : Table) (records : List EligibilityRecord)
    (perrs oerrs : List BatchError) :
    JobAction.upsertBatch ∉
      (runJob true yn rd rptonly ptbl otbl records perrs oerrs).trace ∧
    JobAction.reportWrite ∉
      (runJob true yn rd rptonly ptbl otbl records perrs oerrs).trace ∧
    (runJob true yn rd rptonly ptbl otbl records perrs oerrs).error.isSome = true ∧
    (runJob true yn rd rptonly ptbl otbl records perrs oerrs).report = [] ∧
    (runJob true yn rd rptonly ptbl otbl records perrs oerrs).persTbl = ptbl ∧
    (runJob true yn rd rptonly ptbl otbl records perrs oerrs).orgTbl = otbl := by
  rcases heq : fetch_records_mode yn rd with e | m <;> simp [runJob, heq]

/-- Claim C8, counterexample to the claim as stated: a failure while
rendering the email template propagates out of send_email — the rendering
call sits before the try block that only guards the SMTP send — so the
notifier does not absorb every rendering failure. -/
theorem C8_counterexample :
    send_email ["ops@firsttechfed.com"] none (.error "TemplateNotFound: alert.html")
      false true (.ok ())
      = .error "TemplateNotFound: alert.html" := rfl

/-- Claim C8 as amended: once a destination address resolves, a failure
while sending over SMTP is caught and reported as (False, Email Failed)
without propagating, while a failure while rendering the email template
propagates out of send_email and aborts the notification stage. -/
theorem C8_smtp_caught_render_propagates (recipients : List String)
    (testAddr : Option String) (content renderMsg smtpMsg : String)
    (h : testAddr ≠ none ∨ recipients ≠ []) :
    send_email recipients testAddr (.ok content) false true (.error smtpMsg)
      = .ok (false, "Email Failed") ∧
    send_email recipients testAddr (.error renderMsg) false true (.ok ())
      = .error renderMsg := by
  rcases testAddr with _ | t
  · rcases recipients with _ | ⟨r, rs⟩
    · rcases h with h | h
      · exact absurd rfl h
      · exact absurd rfl h
    · exact ⟨rfl, rfl⟩
  · exact ⟨rfl, rfl⟩

theorem C8_witness :
    ((some "qa@firsttechfed.com" : Option String) ≠ none ∨ ([] : List String) ≠ []) ∧
    (send_email [] (some "qa@firsttechfed.com") (.ok "<html></html>") false true
        (.error "connection refused")
      = .ok (false, "Email Failed") ∧
     send_email [] (some "qa@firsttechfed.com") (.error "TemplateNotFound: alert.html")
        false true (.ok ())
      = .error "TemplateNotFound: alert.html") :=
  ⟨Or.inl (by decide),
    C8_smtp_caught_render_propagates [] (some "qa@firsttechfed.com") "<html></html>"
      "TemplateNotFound: alert.html" "connection refused" (Or.inl (by decide))⟩

/-- Claim C10 (confirmed): when the success list is empty and the fail list
is non-empty, write_report_file calls write_report in append mode, where the
local variable header is never assigned; the first loop iteration raises the
unbound-local error before any fail row is written, and the resulting file
content has no header row and no data rows. -/
theorem C10_append_mode_header_unbound (fails : List PyVal) (h : fails ≠ []) :
    write_report_file [] fails
      = ([], some "UnboundLocalError: local variable header referenced before assignment") := by
  cases fails with
  | nil => exact absurd rfl h
  | cons f fs =>
      have hne : ¬ ("a+" : String) = "w" := by decide
      simp [write_report_file, write_report, hne]

theorem C10_witness :
    ([failRow [900] ⟨900, 700, "org", "01-15-2024"⟩] : List PyVal) ≠ [] ∧
    write_report_file [] [failRow [900] ⟨900, 700, "org", "01-15-2024"⟩]
      = ([], some "UnboundLocalError: local variable header referenced before assignment") :=
  ⟨by decide, C10_append_mode_header_unbound _ (by decide)⟩
